import Mathlib

/-!
Verification of the OutbreakGuardian inference gateway (src/backend/main.py,
main-lstm.py, main-working.py) against its specification.

Python floats are modelled as rationals (`ℚ`), Python ints as `ℤ`; every
decimal literal of the source is exact in either type.  The per-call draw of
`np.random.random()` is an explicit parameter `r : ℚ`, assumed in `[0, 1)`;
Python's string `hash` is an explicit parameter `hashFn : String → ℤ`.
A loaded model artifact is modelled as a function from the feature vector to
`Except Unit (List ℚ)`: `.error` stands for an exception raised during
inference, `.ok row` for the first row of the model's output array.
-/

namespace OutbreakGuardian

/-- Request schema `MLPredictionInput` (main.py lines 32-39). -/
structure MLPredictionInput where
  temperature : ℚ
  humidity : ℚ
  populationDensity : ℚ
  previousCases : ℤ
  wastewaterLevels : ℚ
  socialMediaSentiment : ℚ
  timestamp : String
deriving DecidableEq, Repr

/-- Response schema `MLPredictionOutput` (main.py lines 41-45); the
`featureImportance` dict is an insertion-ordered association list. -/
structure MLPredictionOutput where
  riskLevel : ℚ
  predictedCases : ℚ
  confidence : ℚ
  featureImportance : List (String × ℚ)
deriving DecidableEq, Repr

/-- The fixed feature-importance mapping returned on every path
(main.py lines 150-157 and 257-264). -/
def featureImportanceConst : List (String × ℚ) :=
  [("temperature", 0.85), ("humidity", 0.72), ("populationDensity", 0.68),
   ("previousCases", 0.91), ("wastewaterLevels", 0.63),
   ("socialMediaSentiment", 0.45)]

/-- The 6-element feature row built for the model (main.py lines 131-138,
identically main-lstm.py lines 134-141). -/
def toFeatureVector (i : MLPredictionInput) : List ℚ :=
  [i.temperature, i.humidity, i.populationDensity, (i.previousCases : ℚ),
   i.wastewaterLevels, i.socialMediaSentiment]

/-- `simulate_prediction` (main.py lines 238-265).  `r` is the value drawn by
`np.random.random()` on this call. -/
def simulate_prediction (r : ℚ) (i : MLPredictionInput) : MLPredictionOutput :=
  let risk_level : ℚ := min 100 (max 0
    (30 + (i.temperature - 20) * 0.5 +
      (i.humidity - 50) * 0.3 +
      (i.previousCases : ℚ) * 0.8 +
      i.wastewaterLevels * 0.6))
  let predicted_cases : ℚ := max 0
    ((i.previousCases : ℚ) * 1.1 +
      (i.populationDensity / 1000) * 0.5 +
      (i.socialMediaSentiment - 0.5) * 10)
  { riskLevel := risk_level
    predictedCases := predicted_cases
    confidence := min 95 (70 + r * 25)
    featureImportance := featureImportanceConst }

/-- `simulate_prediction` of main-lstm.py (lines 333-360): identical except
that confidence is `min(95, 70 + (hash(str(timestamp)) % 25))`; `hashFn` is
the process's string-hash function (`%` is Python's nonnegative remainder,
i.e. `Int.emod`). -/
def simulate_prediction_lstm (hashFn : String → ℤ) (i : MLPredictionInput) :
    MLPredictionOutput :=
  let risk_level : ℚ := min 100 (max 0
    (30 + (i.temperature - 20) * 0.5 +
      (i.humidity - 50) * 0.3 +
      (i.previousCases : ℚ) * 0.8 +
      i.wastewaterLevels * 0.6))
  let predicted_cases : ℚ := max 0
    ((i.previousCases : ℚ) * 1.1 +
      (i.populationDensity / 1000) * 0.5 +
      (i.socialMediaSentiment - 0.5) * 10)
  { riskLevel := risk_level
    predictedCases := predicted_cases
    confidence := min 95 (70 + ((hashFn i.timestamp % 25 : ℤ) : ℚ))
    featureImportance := featureImportanceConst }

/-- A loaded outbreak model: feature row to raw output row, `.error` when the
model invocation raises. -/
def ModelFun : Type := List ℚ → Except Unit (List ℚ)

/-- `predict_outbreak` (main.py lines 122-169): if no model is loaded, or the
model call raises, fall back to `simulate_prediction`; otherwise read up to
three output scalars positionally with defaults `(50, 25, 85)` and clamp.
`r` is this call's `np.random.random()` draw (used only on the fallback). -/
def predict_outbreak (model : Option ModelFun) (r : ℚ)
    (input_data : MLPredictionInput) : MLPredictionOutput :=
  match model with
  | none => simulate_prediction r input_data
  | some f =>
    match f (toFeatureVector input_data) with
    | Except.error _ => simulate_prediction r input_data
    | Except.ok row =>
      let risk_level : ℚ := row.getD 0 50
      let predicted_cases : ℚ := row.getD 1 25
      let confidence : ℚ := row.getD 2 85
      { riskLevel := min 100 (max 0 risk_level)
        predictedCases := max 0 predicted_cases
        confidence := min 100 (max 0 confidence)
        featureImportance := featureImportanceConst }

/-- Request schema `OptimizationInput` (main.py lines 47-53). -/
structure OptimizationInput where
  beds : ℤ
  nurses : ℤ
  doctors : ℤ
  equipment : ℤ
  currentWaitTimes : List ℚ
  patientFlow : List ℚ
deriving DecidableEq, Repr

/-- The `optimizedAllocation` dict, whose keys are fixed
(main.py lines 269-274). -/
structure Allocation where
  beds : ℤ
  nurses : ℤ
  doctors : ℤ
  equipment : ℤ
deriving DecidableEq, Repr

/-- Response schema `OptimizationOutput` (main.py lines 55-58). -/
structure OptimizationOutput where
  optimizedAllocation : Allocation
  expectedImprovements : List (String × ℚ)
  recommendations : List String
deriving DecidableEq, Repr

/-- The fixed three-item recommendation list returned on every optimization
path (main.py lines 283-287). -/
def recommendationsConst : List String :=
  ["Redistribute 12 beds from General Ward to ICU",
   "Schedule additional nursing staff during peak hours (2-6 PM)",
   "Relocate portable equipment to Emergency Department"]

/-- `simulate_optimization` (main.py lines 267-293): fixed per-field
increments capped at per-field ceilings, constant improvement percentages. -/
def simulate_optimization (i : OptimizationInput) : OptimizationOutput :=
  { optimizedAllocation :=
      { beds := min 100 (i.beds + 5)
        nurses := min 150 (i.nurses + 10)
        doctors := min 50 (i.doctors + 2)
        equipment := min 100 (i.equipment + 3) }
    expectedImprovements :=
      [("waitTimeReduction", 28.0), ("bedUtilization", 92.0),
       ("staffEfficiency", 15.0), ("patientSatisfaction", 22.0)]
    recommendations := recommendationsConst }

/-- Python's `sum(xs) / len(xs)`: `.error` models the `ZeroDivisionError`
raised on an empty list (main-working.py line 174). -/
def meanOrRaise (xs : List ℚ) : Except Unit ℚ :=
  if xs.length = 0 then Except.error () else Except.ok (xs.sum / xs.length)

/-- `optimize_resources` of main-working.py (lines 161-197): the simple
increments plus improvements derived from `mean(currentWaitTimes)`.  Any
exception inside the `try` (in particular the `ZeroDivisionError` on an empty
`currentWaitTimes`) is caught and re-surfaced as the HTTP 500 error
`"Optimization failed"`, modelled as `Except.error`. -/
def optimize_resources_working (i : OptimizationInput) :
    Except String OptimizationOutput :=
  match meanOrRaise i.currentWaitTimes with
  | Except.error _ => Except.error "Optimization failed"
  | Except.ok avg_wait_time =>
    let wait_reduction : ℚ := min 40 (max 15 (avg_wait_time * 0.3))
    Except.ok
      { optimizedAllocation :=
          { beds := min 100 (i.beds + 5)
            nurses := min 150 (i.nurses + 10)
            doctors := min 50 (i.doctors + 2)
            equipment := min 100 (i.equipment + 3) }
        expectedImprovements :=
          [("waitTimeReduction", wait_reduction),
           ("bedUtilization", min 95 ((i.beds : ℚ) + 10)),
           ("staffEfficiency", min 25 (((i.nurses : ℚ) + (i.doctors : ℚ)) * 0.1)),
           ("patientSatisfaction", min 30 (wait_reduction * 0.8))]
        recommendations := recommendationsConst }

/-- The single batch-level failure surfaced by `predict_batch`
(main.py line 236: HTTP 500 "Batch prediction failed"). -/
inductive BatchError where
  | batchPredictionFailed
deriving DecidableEq, Repr

/-- The loop body of `predict_batch` (main.py lines 228-233): items processed
sequentially in order, the per-item call at position `k` gets the call index
(so that its random draw can be identified); the surrounding `except` turns
the first escaping exception into the single batch-level error and discards
the partial `predictions` list (main.py lines 234-236). -/
def predict_batch_go {α β ε : Type} (f : ℕ → α → Except ε β) :
    ℕ → List α → Except BatchError (List β)
  | _, [] => Except.ok []
  | k, x :: xs =>
    match f k x with
    | Except.error _ => Except.error BatchError.batchPredictionFailed
    | Except.ok y =>
      match predict_batch_go f (k + 1) xs with
      | Except.error e => Except.error e
      | Except.ok ys => Except.ok (y :: ys)

/-- `predict_batch` (main.py lines 225-236) composed with the actual
`predict_outbreak`, which always returns (its exceptions are caught
internally); `rand k` is the `np.random.random()` draw of the `k`-th item's
call. -/
def predict_batch (model : Option ModelFun) (rand : ℕ → ℚ)
    (inputs : List MLPredictionInput) :
    Except BatchError (List MLPredictionOutput) :=
  predict_batch_go
    (fun k x => (Except.ok (predict_outbreak model (rand k) x) :
      Except Unit MLPredictionOutput)) 0 inputs

/-- A fitted per-column affine scaler (sklearn `StandardScaler`-style), as
loaded by `load_scaler` (main-lstm.py lines 116-129). -/
structure Scaler where
  mean : ℕ → ℚ
  scale : ℕ → ℚ

/-- `scaler.transform`: per-column affine map, applied at each column index,
preserving the row's length. -/
def Scaler.transform (s : Scaler) (v : List ℚ) : List ℚ :=
  v.enum.map fun p => (p.2 - s.mean p.1) / s.scale p.1

/-- The scaled feature row of `preprocess_input` (main-lstm.py lines 134-145):
the canonical 6-feature row, rescaled when a scaler artifact is present. -/
def scaledFeatures (scaler : Option Scaler) (i : MLPredictionInput) : List ℚ :=
  match scaler with
  | some s => s.transform (toFeatureVector i)
  | none => toFeatureVector i

/-- `preprocess_input` (main-lstm.py lines 131-152): `np.tile` of the single
feature row `sequence_length` times, reshaped to `(1, sequence_length, 6)`,
as a nested list. -/
def preprocess_input (scaler : Option Scaler) (sequence_length : ℕ)
    (i : MLPredictionInput) : List (List (List ℚ)) :=
  [List.replicate sequence_length (scaledFeatures scaler i)]

/-- Post-startup model state of main.py; artifact handles are Booleans
("is not None"). -/
structure MainState where
  outbreak_model : Bool
  optimization_model : Bool
  isLoaded : Bool
deriving DecidableEq, Repr

/-- Environment of main.py's `startup_event`: which model files exist, and
whether each `joblib.load` returns normally or raises. -/
structure MainStartupEnv where
  outbreakExists : Bool
  optExists : Bool
  outbreakLoadOk : Bool
  optLoadOk : Bool
deriving DecidableEq, Repr

/-- `startup_event` (main.py lines 79-106): both loads happen inside one
`try`; an exception leaves the models assigned so far and sets
`isLoaded = False`; otherwise `isLoaded` is the OR of the two handles
(line 102). -/
def startup_main (e : MainStartupEnv) : MainState :=
  if e.outbreakExists && !e.outbreakLoadOk then
    { outbreak_model := false, optimization_model := false, isLoaded := false }
  else if e.optExists && !e.optLoadOk then
    { outbreak_model := e.outbreakExists, optimization_model := false
      isLoaded := false }
  else
    { outbreak_model := e.outbreakExists
      optimization_model := e.optExists
      isLoaded := e.outbreakExists || e.optExists }

/-- Post-startup model state of main-lstm.py. -/
structure LstmState where
  lstm_loaded : Bool
  scaler_loaded : Bool
  optimization_model : Bool
  isLoaded : Bool
  modelType : String
deriving DecidableEq, Repr

/-- `startup_event` of main-lstm.py (lines 197-232): `load_lstm_model` and
`load_scaler` return success Booleans and never raise; the optimization-model
load is guarded by its own inner `try`; `isLoaded = lstm_loaded or
scaler_loaded` (line 222) — the optimization model does not enter it. -/
def startup_lstm (lstmLoaded scalerLoaded optLoaded : Bool) : LstmState :=
  { lstm_loaded := lstmLoaded
    scaler_loaded := scalerLoaded
    optimization_model := optLoaded
    isLoaded := lstmLoaded || scalerLoaded
    modelType := if lstmLoaded then "LSTM" else "Simulation" }

/-! ### Projection lemmas -/

theorem simulate_prediction_riskLevel (r : ℚ) (i : MLPredictionInput) :
    (simulate_prediction r i).riskLevel =
      min 100 (max 0 (30 + (i.temperature - 20) * 0.5 + (i.humidity - 50) * 0.3 +
        (i.previousCases : ℚ) * 0.8 + i.wastewaterLevels * 0.6)) := rfl

theorem simulate_prediction_predictedCases (r : ℚ) (i : MLPredictionInput) :
    (simulate_prediction r i).predictedCases =
      max 0 ((i.previousCases : ℚ) * 1.1 + (i.populationDensity / 1000) * 0.5 +
        (i.socialMediaSentiment - 0.5) * 10) := rfl

theorem simulate_prediction_confidence (r : ℚ) (i : MLPredictionInput) :
    (simulate_prediction r i).confidence = min 95 (70 + r * 25) := rfl

theorem simulate_prediction_lstm_confidence (hashFn : String → ℤ)
    (i : MLPredictionInput) :
    (simulate_prediction_lstm hashFn i).confidence =
      min 95 (70 + ((hashFn i.timestamp % 25 : ℤ) : ℚ)) := rfl

theorem simulate_optimization_allocation (i : OptimizationInput) :
    (simulate_optimization i).optimizedAllocation =
      { beds := min 100 (i.beds + 5), nurses := min 150 (i.nurses + 10),
        doctors := min 50 (i.doctors + 2), equipment := min 100 (i.equipment + 3) } := rfl

/-! ### Shared bound lemmas -/

/-- The simulation path's outputs are bounded whenever the random draw is
nonnegative (as `np.random.random()` always is). -/
theorem simulate_prediction_bounds (r : ℚ) (i : MLPredictionInput) (h0 : 0 ≤ r) :
    0 ≤ (simulate_prediction r i).riskLevel ∧
      (simulate_prediction r i).riskLevel ≤ 100 ∧
      0 ≤ (simulate_prediction r i).predictedCases ∧
      70 ≤ (simulate_prediction r i).confidence ∧
      (simulate_prediction r i).confidence ≤ 95 := by
  rw [simulate_prediction_riskLevel, simulate_prediction_predictedCases,
    simulate_prediction_confidence]
  refine ⟨le_min (by norm_num) (le_max_left _ _), min_le_left _ _,
    le_max_left _ _, le_min (by norm_num) (by nlinarith), min_le_left _ _⟩

/-- Every output of `predict_outbreak` — model path, failed-model fallback, or
simulation — satisfies the clamped bounds. -/
theorem predict_outbreak_bounds (model : Option ModelFun) (r : ℚ)
    (i : MLPredictionInput) (h0 : 0 ≤ r) :
    0 ≤ (predict_outbreak model r i).riskLevel ∧
      (predict_outbreak model r i).riskLevel ≤ 100 ∧
      0 ≤ (predict_outbreak model r i).predictedCases ∧
      0 ≤ (predict_outbreak model r i).confidence ∧
      (predict_outbreak model r i).confidence ≤ 100 := by
  have sim : ∀ hsim : predict_outbreak model r i = simulate_prediction r i,
      0 ≤ (predict_outbreak model r i).riskLevel ∧
        (predict_outbreak model r i).riskLevel ≤ 100 ∧
        0 ≤ (predict_outbreak model r i).predictedCases ∧
        0 ≤ (predict_outbreak model r i).confidence ∧
        (predict_outbreak model r i).confidence ≤ 100 := by
    intro hsim
    rw [hsim]
    obtain ⟨a, b, c, d, e⟩ := simulate_prediction_bounds r i h0
    exact ⟨a, b, c, by linarith, by linarith⟩
  rcases model with _ | f
  · exact sim rfl
  · cases hrow : f (toFeatureVector i) with
    | error err => exact sim (by simp [predict_outbreak, hrow])
    | ok row =>
      have hval : predict_outbreak (some f) r i =
          { riskLevel := min 100 (max 0 (row.getD 0 50))
            predictedCases := max 0 (row.getD 1 25)
            confidence := min 100 (max 0 (row.getD 2 85))
            featureImportance := featureImportanceConst } := by
        simp [predict_outbreak, hrow]
      rw [hval]
      exact ⟨le_min (by norm_num) (le_max_left _ _), min_le_left _ _,
        le_max_left _ _, le_min (by norm_num) (le_max_left _ _), min_le_left _ _⟩

/-! ### Concrete inputs used by witnesses and examples -/

/-- The spec's worked prediction example. -/
def exampleInput : MLPredictionInput :=
  { temperature := 25.5, humidity := 60.0, populationDensity := 1500.0,
    previousCases := 20, wastewaterLevels := 45.0, socialMediaSentiment := 0.6,
    timestamp := "2024-01-01T12:00:00Z" }

/-- A loaded model whose raw output violates every declared bound. -/
def badModel : ModelFun := fun _ => Except.ok [1000, -5, 250]

/-- The spec's worked optimization example. -/
def exampleOptInput : OptimizationInput :=
  { beds := 85, nurses := 120, doctors := 35, equipment := 90,
    currentWaitTimes := [78, 45, 62, 35, 41],
    patientFlow := [120, 135, 110, 145, 125] }

/-- A valid (non-negative) optimization input whose bed count exceeds the
100-bed ceiling. -/
def overCeilingOptInput : OptimizationInput :=
  { beds := 101, nurses := 120, doctors := 35, equipment := 90,
    currentWaitTimes := [78, 45, 62, 35, 41],
    patientFlow := [120, 135, 110, 145, 125] }

/-! ### Claims -/

/-- Claim C1: for every valid `PredictionInput`, the output of `predict`
satisfies `0 ≤ riskLevel ≤ 100`, `predictedCases ≥ 0` and
`0 ≤ confidence ≤ 100`, on both the model path and the simulation path, even
when a loaded model's raw output violates these bounds.  `model` ranges over
absent, raising, and arbitrary-output loaded models; `r` is the call's
`np.random.random()` draw. -/
theorem claim_C1 (model : Option ModelFun) (r : ℚ) (i : MLPredictionInput)
    (h0 : 0 ≤ r) (_h1 : r < 1) :
    0 ≤ (predict_outbreak model r i).riskLevel ∧
      (predict_outbreak model r i).riskLevel ≤ 100 ∧
      0 ≤ (predict_outbreak model r i).predictedCases ∧
      0 ≤ (predict_outbreak model r i).confidence ∧
      (predict_outbreak model r i).confidence ≤ 100 :=
  predict_outbreak_bounds model r i h0

/-- Witness for C1 at a loaded model returning the out-of-bounds raw row
`[1000, -5, 250]` and draw `1/2`. -/
theorem claim_C1_witness :
    (0 : ℚ) ≤ 1/2 ∧ (1/2 : ℚ) < 1 ∧
      (0 ≤ (predict_outbreak (some badModel) (1/2) exampleInput).riskLevel ∧
        (predict_outbreak (some badModel) (1/2) exampleInput).riskLevel ≤ 100 ∧
        0 ≤ (predict_outbreak (some badModel) (1/2) exampleInput).predictedCases ∧
        0 ≤ (predict_outbreak (some badModel) (1/2) exampleInput).confidence ∧
        (predict_outbreak (some badModel) (1/2) exampleInput).confidence ≤ 100) :=
  ⟨by norm_num, by norm_num,
    claim_C1 (some badModel) (1/2) exampleInput (by norm_num) (by norm_num)⟩

/-- Claim C2: with no predictive model loaded, `predict` computes
`riskLevel = clamp(30 + (temperature−20)·0.5 + (humidity−50)·0.3 +
previousCases·0.8 + wastewaterLevels·0.6, 0, 100)` and
`predictedCases = max(0, previousCases·1.1 + (populationDensity/1000)·0.5 +
(socialMediaSentiment−0.5)·10)`; on the spec's example input this yields
`riskLevel = 78.75` and `predictedCases = 23.75`, whatever random draw the
call makes. -/
theorem claim_C2 :
    (∀ (r : ℚ) (i : MLPredictionInput),
      (predict_outbreak none r i).riskLevel =
        min 100 (max 0 (30 + (i.temperature - 20) * 0.5 + (i.humidity - 50) * 0.3 +
          (i.previousCases : ℚ) * 0.8 + i.wastewaterLevels * 0.6)) ∧
      (predict_outbreak none r i).predictedCases =
        max 0 ((i.previousCases : ℚ) * 1.1 + (i.populationDensity / 1000) * 0.5 +
          (i.socialMediaSentiment - 0.5) * 10)) ∧
    (∀ r : ℚ, (predict_outbreak none r exampleInput).riskLevel = 78.75 ∧
      (predict_outbreak none r exampleInput).predictedCases = 23.75) := by
  constructor
  · exact fun r i => ⟨rfl, rfl⟩
  · intro r
    constructor
    · show (simulate_prediction r exampleInput).riskLevel = 78.75
      rw [simulate_prediction_riskLevel]
      norm_num [exampleInput, min_def, max_def]
    · show (simulate_prediction r exampleInput).predictedCases = 23.75
      rw [simulate_prediction_predictedCases]
      norm_num [exampleInput, max_def]

/-- Counterexample to claim C3: in main.py the simulation path's confidence
comes from `np.random.random()`; two calls on the identical input with two
draws that `np.random.random()` can produce (`0` and `1/2`, both in `[0,1)`)
return different outputs. -/
theorem claim_C3_counterexample :
    (0 : ℚ) ≤ 0 ∧ (0 : ℚ) < 1 ∧ (0 : ℚ) ≤ 1/2 ∧ (1/2 : ℚ) < 1 ∧
      simulate_prediction 0 exampleInput ≠ simulate_prediction (1/2) exampleInput := by
  refine ⟨by norm_num, by norm_num, by norm_num, by norm_num, fun h => ?_⟩
  have hc := congrArg MLPredictionOutput.confidence h
  rw [simulate_prediction_confidence, simulate_prediction_confidence] at hc
  norm_num [min_def] at hc

/-- Claim C3 as amended: in main.py's simulation path, `riskLevel`,
`predictedCases` and `featureImportance` are deterministic pure functions of
the input, and `confidence` lies in `[70, 95]` but depends on the per-call
random draw rather than on the request; in main-lstm.py's simulation path the
confidence is `min(95, 70 + hash(timestamp) % 25)`, deterministic given the
process's string-hash function, and also lies in `[70, 95]`. -/
theorem claim_C3_amended :
    (∀ (i : MLPredictionInput) (r1 r2 : ℚ),
      (simulate_prediction r1 i).riskLevel = (simulate_prediction r2 i).riskLevel ∧
      (simulate_prediction r1 i).predictedCases =
        (simulate_prediction r2 i).predictedCases ∧
      (simulate_prediction r1 i).featureImportance =
        (simulate_prediction r2 i).featureImportance) ∧
    (∀ (r : ℚ) (i : MLPredictionInput), 0 ≤ r → r < 1 →
      70 ≤ (simulate_prediction r i).confidence ∧
        (simulate_prediction r i).confidence ≤ 95) ∧
    (∀ (hashFn : String → ℤ) (i : MLPredictionInput),
      70 ≤ (simulate_prediction_lstm hashFn i).confidence ∧
        (simulate_prediction_lstm hashFn i).confidence ≤ 95) := by
  refine ⟨fun i r1 r2 => ⟨rfl, rfl, rfl⟩, fun r i h0 h1 => ?_, fun hashFn i => ?_⟩
  · obtain ⟨-, -, -, d, e⟩ := simulate_prediction_bounds r i h0
    exact ⟨d, e⟩
  · rw [simulate_prediction_lstm_confidence]
    have hm : (0 : ℤ) ≤ hashFn i.timestamp % 25 :=
      Int.emod_nonneg _ (by norm_num)
    have hq : (0 : ℚ) ≤ ((hashFn i.timestamp % 25 : ℤ) : ℚ) := by exact_mod_cast hm
    exact ⟨le_min (by norm_num) (by linarith), min_le_left _ _⟩

/-- Witness for C3's amended claim at draw `1/2` on the example input. -/
theorem claim_C3_witness :
    (0 : ℚ) ≤ 1/2 ∧ (1/2 : ℚ) < 1 ∧
      (70 ≤ (simulate_prediction (1/2) exampleInput).confidence ∧
        (simulate_prediction (1/2) exampleInput).confidence ≤ 95) :=
  ⟨by norm_num, by norm_num,
    claim_C3_amended.2.1 (1/2) exampleInput (by norm_num) (by norm_num)⟩

/-- Counterexample to claim C4: the valid (all fields non-negative) input
with `beds = 101` gets allocation `beds = min(100, 106) = 100 < 101`, so the
simple-increment simulation's allocation is not always `≥` the corresponding
current-resource field. -/
theorem claim_C4_counterexample :
    ¬ (overCeilingOptInput.beds ≤
        (simulate_optimization overCeilingOptInput).optimizedAllocation.beds) := by
  decide

/-- Claim C4 as amended: for every `OptimizationInput` whose current resource
fields already lie within their ceilings (`beds ≤ 100`, `nurses ≤ 150`,
`doctors ≤ 50`, `equipment ≤ 100`) and are non-negative, each field of the
simple-increment simulation's allocation lies in `[0, ceiling]` and is `≥`
the corresponding current field; the spec's example input yields
`{beds: 90, nurses: 130, doctors: 37, equipment: 93}`. -/
theorem claim_C4_amended :
    (∀ i : OptimizationInput,
      0 ≤ i.beds → i.beds ≤ 100 → 0 ≤ i.nurses → i.nurses ≤ 150 →
      0 ≤ i.doctors → i.doctors ≤ 50 → 0 ≤ i.equipment → i.equipment ≤ 100 →
      (0 ≤ (simulate_optimization i).optimizedAllocation.beds ∧
        (simulate_optimization i).optimizedAllocation.beds ≤ 100 ∧
        i.beds ≤ (simulate_optimization i).optimizedAllocation.beds) ∧
      (0 ≤ (simulate_optimization i).optimizedAllocation.nurses ∧
        (simulate_optimization i).optimizedAllocation.nurses ≤ 150 ∧
        i.nurses ≤ (simulate_optimization i).optimizedAllocation.nurses) ∧
      (0 ≤ (simulate_optimization i).optimizedAllocation.doctors ∧
        (simulate_optimization i).optimizedAllocation.doctors ≤ 50 ∧
        i.doctors ≤ (simulate_optimization i).optimizedAllocation.doctors) ∧
      (0 ≤ (simulate_optimization i).optimizedAllocation.equipment ∧
        (simulate_optimization i).optimizedAllocation.equipment ≤ 100 ∧
        i.equipment ≤ (simulate_optimization i).optimizedAllocation.equipment)) ∧
    (simulate_optimization exampleOptInput).optimizedAllocation =
      { beds := 90, nurses := 130, doctors := 37, equipment := 93 } := by
  constructor
  · intro i hb0 hb1 hn0 hn1 hd0 hd1 he0 he1
    simp only [simulate_optimization_allocation]
    refine ⟨⟨?_, ?_, ?_⟩, ⟨?_, ?_, ?_⟩, ⟨?_, ?_, ?_⟩, ⟨?_, ?_, ?_⟩⟩ <;> omega
  · decide

/-- Witness for C4's amended claim at the spec's example input. -/
theorem claim_C4_witness :
    ((0 ≤ exampleOptInput.beds ∧ exampleOptInput.beds ≤ 100 ∧
      0 ≤ exampleOptInput.nurses ∧ exampleOptInput.nurses ≤ 150 ∧
      0 ≤ exampleOptInput.doctors ∧ exampleOptInput.doctors ≤ 50 ∧
      0 ≤ exampleOptInput.equipment ∧ exampleOptInput.equipment ≤ 100) ∧
    ((0 ≤ (simulate_optimization exampleOptInput).optimizedAllocation.beds ∧
        (simulate_optimization exampleOptInput).optimizedAllocation.beds ≤ 100 ∧
        exampleOptInput.beds ≤
          (simulate_optimization exampleOptInput).optimizedAllocation.beds) ∧
      (0 ≤ (simulate_optimization exampleOptInput).optimizedAllocation.nurses ∧
        (simulate_optimization exampleOptInput).optimizedAllocation.nurses ≤ 150 ∧
        exampleOptInput.nurses ≤
          (simulate_optimization exampleOptInput).optimizedAllocation.nurses) ∧
      (0 ≤ (simulate_optimization exampleOptInput).optimizedAllocation.doctors ∧
        (simulate_optimization exampleOptInput).optimizedAllocation.doctors ≤ 50 ∧
        exampleOptInput.doctors ≤
          (simulate_optimization exampleOptInput).optimizedAllocation.doctors) ∧
      (0 ≤ (simulate_optimization exampleOptInput).optimizedAllocation.equipment ∧
        (simulate_optimization exampleOptInput).optimizedAllocation.equipment ≤ 100 ∧
        exampleOptInput.equipment ≤
          (simulate_optimization exampleOptInput).optimizedAllocation.equipment))) :=
  ⟨⟨by decide, by decide, by decide, by decide, by decide, by decide, by decide,
      by decide⟩,
    claim_C4_amended.1 exampleOptInput (by decide) (by decide) (by decide)
      (by decide) (by decide) (by decide) (by decide) (by decide)⟩

/-- Claim C5: the code is wrong.  `optimize_resources` of main-working.py
divides by `len(currentWaitTimes)` with no guard: on an empty list the
`ZeroDivisionError` is caught by the blanket handler and the call fails with
the HTTP 500 error "Optimization failed" instead of returning a result
computed as if the mean were 0. -/
theorem claim_C5_failure :
    optimize_resources_working
      { beds := 85, nurses := 120, doctors := 35, equipment := 90,
        currentWaitTimes := [], patientFlow := [50] } =
      Except.error "Optimization failed" := rfl

/-- Unrolling of the batch loop when every per-item call returns: the result
is `ok`, same length, in order, and each output is some single-predict
value. -/
theorem predict_batch_go_spec (model : Option ModelFun) (rand : ℕ → ℚ) :
    ∀ (xs : List MLPredictionInput) (k : ℕ),
      ∃ outs : List MLPredictionOutput,
        predict_batch_go
            (fun n x => (Except.ok (predict_outbreak model (rand n) x) :
              Except Unit MLPredictionOutput)) k xs = Except.ok outs ∧
          outs.length = xs.length ∧
          (∀ j : ℕ, outs.get? j =
            (xs.get? j).map (fun x => predict_outbreak model (rand (k + j)) x)) ∧
          (∀ y ∈ outs, ∃ n x, y = predict_outbreak model (rand n) x)
  | [], k => ⟨[], rfl, rfl, fun j => by cases j <;> rfl,
      fun y hy => absurd hy (List.not_mem_nil y)⟩
  | x :: xs, k => by
    obtain ⟨outs, h1, h2, h3, h4⟩ := predict_batch_go_spec model rand xs (k + 1)
    refine ⟨predict_outbreak model (rand k) x :: outs, ?_, ?_, ?_, ?_⟩
    · simp only [predict_batch_go]
      rw [h1]
    · simp [h2]
    · intro j
      cases j with
      | zero => simp
      | succ m =>
        have e : k + 1 + m = k + (m + 1) := by omega
        have := h3 m
        rw [e] at this
        simpa using this
    · intro y hy
      rcases List.mem_cons.mp hy with h | h
      · exact ⟨k, x, h⟩
      · exact h4 y h

/-- Claim C6: `predict_batch` on `N` inputs returns `ok` with exactly `N`
outputs in input order, the `j`-th being `predict_outbreak` of the `j`-th
input (with that call's draw `rand j`), each satisfying the single-predict
bounds. -/
theorem claim_C6 (model : Option ModelFun) (rand : ℕ → ℚ)
    (inputs : List MLPredictionInput) (hr : ∀ k, 0 ≤ rand k ∧ rand k < 1) :
    ∃ outs : List MLPredictionOutput,
      predict_batch model rand inputs = Except.ok outs ∧
        outs.length = inputs.length ∧
        (∀ j : ℕ, outs.get? j =
          (inputs.get? j).map (fun x => predict_outbreak model (rand j) x)) ∧
        ∀ y ∈ outs, 0 ≤ y.riskLevel ∧ y.riskLevel ≤ 100 ∧
          0 ≤ y.predictedCases ∧ 0 ≤ y.confidence ∧ y.confidence ≤ 100 := by
  obtain ⟨outs, h1, h2, h3, h4⟩ := predict_batch_go_spec model rand inputs 0
  refine ⟨outs, h1, h2, fun j => by simpa using h3 j, fun y hy => ?_⟩
  obtain ⟨n, x, rfl⟩ := h4 y hy
  exact predict_outbreak_bounds model (rand n) x (hr n).1

/-- The constant draw `1/2`, standing for one possible run of the RNG. -/
def halfDraw : ℕ → ℚ := fun _ => 1/2

/-- Witness for C6: a one-element batch with no model loaded and draw `1/2`. -/
theorem claim_C6_witness :
    (∀ k : ℕ, 0 ≤ halfDraw k ∧ halfDraw k < 1) ∧
    (∃ outs : List MLPredictionOutput,
      predict_batch none halfDraw [exampleInput] = Except.ok outs ∧
        outs.length = [exampleInput].length ∧
        (∀ j : ℕ, outs.get? j =
          ([exampleInput].get? j).map (fun x => predict_outbreak none (halfDraw j) x)) ∧
        ∀ y ∈ outs, 0 ≤ y.riskLevel ∧ y.riskLevel ≤ 100 ∧
          0 ≤ y.predictedCases ∧ 0 ≤ y.confidence ∧ y.confidence ≤ 100) :=
  ⟨fun k => ⟨by norm_num [halfDraw], by norm_num [halfDraw]⟩,
    claim_C6 none halfDraw [exampleInput]
      (fun k => ⟨by norm_num [halfDraw], by norm_num [halfDraw]⟩)⟩

/-- The batch loop aborts with the single batch-level error as soon as a
per-item call raises, whatever the starting index. -/
theorem predict_batch_go_fails {α β ε : Type} (f : ℕ → α → Except ε β) :
    ∀ (inputs : List α) (k : ℕ),
      (∃ j x, inputs.get? j = some x ∧ ∃ e, f (k + j) x = Except.error e) →
      predict_batch_go f k inputs = Except.error BatchError.batchPredictionFailed
  | [], k => by
    rintro ⟨j, x, hx, -⟩
    cases j <;> exact absurd hx (by simp)
  | a :: as, k => by
    rintro ⟨j, x, hx, e, he⟩
    cases hfa : f k a with
    | error err => simp [predict_batch_go, hfa]
    | ok v =>
      cases j with
      | zero =>
        obtain rfl : a = x := by
          have : some a = some x := hx
          injection this
        rw [Nat.add_zero] at he
        rw [hfa] at he
        exact absurd he (by simp)
      | succ m =>
        have tail : predict_batch_go f (k + 1) as =
            Except.error BatchError.batchPredictionFailed := by
          apply predict_batch_go_fails f as (k + 1)
          refine ⟨m, x, hx, e, ?_⟩
          have e2 : k + 1 + m = k + (m + 1) := by omega
          rw [e2]
          exact he
        simp [predict_batch_go, hfa, tail]

/-- Claim C7: if any per-item invocation inside the batch loop raises past
its own internal fallback, the whole batch call fails with the single
batch-level error ("Batch prediction failed", HTTP 500) and no partial list
of already-computed results is returned.  The per-item call is abstracted as
a fallible `f`, since `predict_outbreak` itself never lets an exception
escape. -/
theorem claim_C7 {α β ε : Type} (f : ℕ → α → Except ε β) (inputs : List α)
    (h : ∃ j x, inputs.get? j = some x ∧ ∃ e, f j x = Except.error e) :
    predict_batch_go f 0 inputs = Except.error BatchError.batchPredictionFailed := by
  apply predict_batch_go_fails f inputs 0
  simpa using h

/-- An item handler that raises on input `1`. -/
def failingItem : ℕ → ℕ → Except Unit ℕ :=
  fun _ n => if n = 1 then Except.error () else Except.ok n

/-- Witness for C7: the batch `[0, 1, 2]` whose second item raises fails as a
whole with the single batch-level error. -/
theorem claim_C7_witness :
    (∃ j x, ([0, 1, 2] : List ℕ).get? j = some x ∧
      ∃ e, failingItem j x = Except.error e) ∧
    predict_batch_go failingItem 0 [0, 1, 2] =
      Except.error BatchError.batchPredictionFailed :=
  ⟨⟨1, 1, rfl, (), rfl⟩, claim_C7 failingItem [0, 1, 2] ⟨1, 1, rfl, (), rfl⟩⟩

/-- Counterexample to claim C8: in main-lstm.py's startup, loading only the
optimization model leaves `isLoaded = false`, so `isLoaded = false` is not
equivalent to "no artifact (predictive model, scaler, or optimization model)
loaded successfully". -/
theorem claim_C8_counterexample :
    ¬ (((startup_lstm false false true).isLoaded = false) ↔
        ((startup_lstm false false true).lstm_loaded = false ∧
          (startup_lstm false false true).scaler_loaded = false ∧
          (startup_lstm false false true).optimization_model = false)) := by
  decide

/-- Claim C8 as amended: in main-lstm.py, `isLoaded` is the OR of the
LSTM-model and scaler flags only, so it is false iff neither of those two
loaded — a successfully loaded optimization model does not enter it; in
main.py, provided no load inside the startup `try` raises, `isLoaded` is the
OR of the outbreak-model and optimization-model handles, and is false iff
neither is present. -/
theorem claim_C8_amended :
    (∀ a s o : Bool,
      ((startup_lstm a s o).isLoaded = (a || s)) ∧
      ((startup_lstm a s o).isLoaded = false ↔ (a = false ∧ s = false))) ∧
    (∀ e : MainStartupEnv,
      (e.outbreakExists = true → e.outbreakLoadOk = true) →
      (e.optExists = true → e.optLoadOk = true) →
      ((startup_main e).isLoaded =
        ((startup_main e).outbreak_model || (startup_main e).optimization_model)) ∧
      ((startup_main e).isLoaded = false ↔
        ((startup_main e).outbreak_model = false ∧
          (startup_main e).optimization_model = false))) := by
  constructor
  · intro a s o
    cases a <;> cases s <;> simp [startup_lstm]
  · rintro ⟨oe, pe, ol, pl⟩ h1 h2
    cases oe <;> cases pe <;> cases ol <;> cases pl <;>
      simp_all [startup_main]

/-- The startup environment where only the optimization-model file exists
and loads cleanly. -/
def optOnlyEnv : MainStartupEnv :=
  { outbreakExists := false, optExists := true, outbreakLoadOk := true,
    optLoadOk := true }

/-- Witness for C8's amended claim at the environment where only the
optimization model file exists and loads. -/
theorem claim_C8_witness :
    (optOnlyEnv.outbreakExists = true → optOnlyEnv.outbreakLoadOk = true) ∧
    (optOnlyEnv.optExists = true → optOnlyEnv.optLoadOk = true) ∧
    (((startup_main optOnlyEnv).isLoaded =
        ((startup_main optOnlyEnv).outbreak_model ||
          (startup_main optOnlyEnv).optimization_model)) ∧
      ((startup_main optOnlyEnv).isLoaded = false ↔
        ((startup_main optOnlyEnv).outbreak_model = false ∧
          (startup_main optOnlyEnv).optimization_model = false))) :=
  ⟨fun h => rfl, fun h => rfl,
    claim_C8_amended.2 optOnlyEnv (fun h => by cases h) (fun h => rfl)⟩

/-- Claim C9: preprocessing builds the 6-float feature vector in the fixed
canonical order and, for the sequence model, replicates the (possibly
rescaled) vector exactly 7 times into a `(1, 7, 6)` tensor all of whose
timestep rows are identical. -/
theorem claim_C9 (scaler : Option Scaler) (i : MLPredictionInput) :
    toFeatureVector i = [i.temperature, i.humidity, i.populationDensity,
      (i.previousCases : ℚ), i.wastewaterLevels, i.socialMediaSentiment] ∧
    preprocess_input scaler 7 i = [List.replicate 7 (scaledFeatures scaler i)] ∧
    (preprocess_input scaler 7 i).length = 1 ∧
    (List.replicate 7 (scaledFeatures scaler i)).length = 7 ∧
    (scaledFeatures scaler i).length = 6 ∧
    ∀ row ∈ List.replicate 7 (scaledFeatures scaler i),
      row = scaledFeatures scaler i := by
  refine ⟨rfl, rfl, rfl, rfl, ?_, fun row hrow => List.eq_of_mem_replicate hrow⟩
  rcases scaler with _ | s
  · rfl
  · show (s.transform (toFeatureVector i)).length = 6
    simp [Scaler.transform, toFeatureVector]

/-- Claim C10: with no optimization model loaded, the whole
`OptimizationOutput` of main.py's simulation path is independent of
`currentWaitTimes` and `patientFlow`: two inputs agreeing on the four
resource fields give identical outputs. -/
theorem claim_C10 (b n d e : ℤ) (w1 p1 w2 p2 : List ℚ) :
    simulate_optimization ⟨b, n, d, e, w1, p1⟩ =
      simulate_optimization ⟨b, n, d, e, w2, p2⟩ := rfl

end OutbreakGuardian
